import Mathlib

/-
Shallow embedding of the breadth-backend service (src/app.py): the daily
hard-data build (run_daily), the breadth engine (breadth), and the
historical-archive upsert. Prices are modelled as exact rationals; the
provider fetch is modelled as an optional list of OHLC bars (none = fetch
failure); the string sentinel "NIL" is modelled as Option.none; a Python
ZeroDivisionError is modelled as Except.error.
-/

namespace BreadthBackend

/-- One OHLC bar as returned by fetch_stock_data: a date (days since an
epoch), the Close, the High, and the provider-supplied 52weekhigh field
(none models a missing/NaN value). -/
structure Bar where
  date : Nat
  close : ℚ
  high : ℚ
  week52 : Option ℚ
deriving Repr, DecidableEq

/-- Embedding of sum_last (src/app.py lines 65-68): "NIL" (here none) when
fewer than n entries exist, else the sum of the last n entries. -/
def sum_last (series : List ℚ) (n : Nat) : Option ℚ :=
  if series.length < n then none
  else some ((series.drop (series.length - n)).sum)

/-- The qualifying bars of run_daily's per-symbol loop: holiday-dated bars
removed (line 109), then the final bar dropped (line 110). -/
def qualifyingBars (holidays : List Nat) (bars : List Bar) : List Bar :=
  (bars.filter (fun b => !(holidays.contains b.date))).dropLast

/-- The Close column of the qualifying bars (line 115). -/
def qualifyingCloses (holidays : List Nat) (bars : List Bar) : List ℚ :=
  (qualifyingBars holidays bars).map (fun b => b.close)

/-- One row of the hard-data file written by run_daily (lines 117-124). -/
structure HardRow where
  symbol : String
  sum_19 : Option ℚ
  sum_49 : Option ℚ
  sum_99 : Option ℚ
  sum_199 : Option ℚ
  week52high : Option ℚ
deriving Repr, DecidableEq

/-- The body of run_daily's per-symbol loop (lines 109-124) for a symbol
whose fetch returned a non-empty frame: filter holidays, drop the final
bar, skip the symbol when fewer than 20 qualifying days remain (lines
112-113), else record the four rolling sums and the provider-supplied
52weekhigh of the last qualifying bar (line 123). -/
def buildRow (holidays : List Nat) (symbol : String) (bars : List Bar) :
    Option HardRow :=
  let df := qualifyingBars holidays bars
  if df.length < 20 then none
  else
    let closes := df.map (fun b => b.close)
    some
      { symbol := symbol
        sum_19 := sum_last closes 19
        sum_49 := sum_last closes 49
        sum_99 := sum_last closes 99
        sum_199 := sum_last closes 199
        week52high := df.getLast?.bind (fun b => b.week52) }

/-- The rows built by one run_daily pass (lines 104-124): one fetch result
per symbol; a failed fetch (none) or an empty frame is skipped (lines
106-107), the rest go through buildRow. -/
def buildRows (holidays : List Nat)
    (fetches : List (String × Option (List Bar))) : List HardRow :=
  fetches.filterMap (fun p =>
    match p.2 with
    | none => none
    | some bars => if bars.isEmpty then none else buildRow holidays p.1 bars)

/-- The JSON body returned by run_daily (lines 131-136), restricted to its
data fields (the file path and wall-clock timestamp are plumbing). -/
structure DailyResponse where
  universeName : String
  stocks_built : Nat
deriving Repr, DecidableEq

/-- Embedding of the run_daily endpoint on an existing universe: the
response body and the record set written to the hard-data file. -/
def run_daily (holidays : List Nat) (universeName : String)
    (fetches : List (String × Option (List Bar))) :
    DailyResponse × List HardRow :=
  let rows := buildRows holidays fetches
  ({ universeName := universeName, stocks_built := rows.length }, rows)

/-- The hard-data store keyed by universe; run_daily opens the universe's
file in mode "w" (line 127), replacing its whole content. -/
def updateStore (store : String → List HardRow) (u : String)
    (rows : List HardRow) : String → List HardRow :=
  fun v => if v = u then rows else store v

/-- One run_daily pass together with its write to the hard-data store. -/
def run_daily_store (holidays : List Nat) (u : String)
    (fetches : List (String × Option (List Bar)))
    (store : String → List HardRow) :
    (String → List HardRow) × DailyResponse :=
  let out := run_daily holidays u fetches
  (updateStore store u out.2, out.1)

/-- Above/available tally for one moving-average bucket (lines 158-163). -/
structure Counts where
  above : Nat
  available : Nat
deriving Repr, DecidableEq

/-- Python float division: raises ZeroDivisionError on a zero divisor. -/
def pyDiv (a b : ℚ) : Except String ℚ :=
  if b = 0 then Except.error "ZeroDivisionError" else Except.ok (a / b)

/-- One iteration of the ma_map loop (lines 197-211) for one bucket: skip
when the stored sum is the "NIL" sentinel; else ma_value = (sum + ltp) /
period, available is incremented, and above is incremented when
ltp / ma_value >= 1 — a comparison that raises when ma_value = 0. -/
def bucketStep (ltp : ℚ) (period : ℚ) (sumVal : Option ℚ) (c : Counts) :
    Except String Counts :=
  match sumVal with
  | none => Except.ok c
  | some s =>
    let maValue := (s + ltp) / period
    let c1 : Counts := { c with available := c.available + 1 }
    match pyDiv ltp maValue with
    | Except.error e => Except.error e
    | Except.ok r =>
      Except.ok (if 1 ≤ r then { c1 with above := c1.above + 1 } else c1)

/-- Mutable state of the breadth endpoint's per-symbol loop (lines
158-172): the four bucket tallies, the new-high tally, and the last
observed trading date. -/
structure BState where
  c20 : Counts
  c50 : Counts
  c100 : Counts
  c200 : Counts
  newHighs : Nat
  highAvailable : Nat
  lastTradingDate : Option Nat
deriving Repr, DecidableEq

/-- The state before the first symbol is processed. -/
def initState : BState :=
  { c20 := ⟨0, 0⟩, c50 := ⟨0, 0⟩, c100 := ⟨0, 0⟩, c200 := ⟨0, 0⟩,
    newHighs := 0, highAvailable := 0, lastTradingDate := none }

/-- One iteration of the breadth per-symbol loop (lines 174-216): a failed
or empty quote fetch skips the symbol (lines 182-183); else the last bar
supplies ltp, high and the trading date, the four buckets are stepped, and
the new-high tally counts the symbol when its stored 52w_high is present
(line 213), with high >= stored counting as a new high (line 215). -/
def symbolStep (st : BState) (row : HardRow) (quote : Option (List Bar)) :
    Except String BState := do
  match quote with
  | none => return st
  | some bars =>
    match bars.getLast? with
    | none => return st
    | some lastBar =>
      let ltp := lastBar.close
      let hi := lastBar.high
      let c20 ← bucketStep ltp 20 row.sum_19 st.c20
      let c50 ← bucketStep ltp 50 row.sum_49 st.c50
      let c100 ← bucketStep ltp 100 row.sum_99 st.c100
      let c200 ← bucketStep ltp 200 row.sum_199 st.c200
      let highsPair :=
        match row.week52high with
        | none => (st.newHighs, st.highAvailable)
        | some w =>
          ((if w ≤ hi then st.newHighs + 1 else st.newHighs),
           st.highAvailable + 1)
      return { c20 := c20, c50 := c50, c100 := c100, c200 := c200,
               newHighs := highsPair.1, highAvailable := highsPair.2,
               lastTradingDate := some lastBar.date }

/-- The whole per-symbol loop of the breadth endpoint: one hard-data row
paired with its quote-fetch result per symbol. -/
def runSymbols (items : List (HardRow × Option (List Bar))) :
    Except String BState :=
  items.foldlM (fun st p => symbolStep st p.1 p.2) initState

/-- One rendered bucket of the breadth response (lines 225-252): the "NIL"
sentinels are modelled as none. -/
structure BucketOut where
  above : Option Nat
  available : Nat
  pct : Option ℚ
deriving Repr, DecidableEq

/-- Rendering of one tally (lines 225-238): the sentinel shape when
available = 0, else pct = above / available. -/
def renderBucket (c : Counts) : BucketOut :=
  if c.available = 0 then { above := none, available := 0, pct := none }
  else
    { above := some c.above, available := c.available,
      pct := some ((c.above : ℚ) / (c.available : ℚ)) }

/-- The breadth response body: the four MA buckets and the new-high
bucket. -/
structure Snapshot where
  ma20 : BucketOut
  ma50 : BucketOut
  ma100 : BucketOut
  ma200 : BucketOut
  highs : BucketOut
deriving Repr, DecidableEq

/-- Rendering of the final loop state into the response (lines 222-252). -/
def buildSnapshot (st : BState) : Snapshot :=
  { ma20 := renderBucket st.c20
    ma50 := renderBucket st.c50
    ma100 := renderBucket st.c100
    ma200 := renderBucket st.c200
    highs := renderBucket { above := st.newHighs, available := st.highAvailable } }

/-- The nil_found flag (lines 223-246): true exactly when some bucket,
the new-high bucket included, has available = 0. -/
def snapshotNil (s : Snapshot) : Bool :=
  (s.ma20.available == 0) || (s.ma50.available == 0) ||
  (s.ma100.available == 0) || (s.ma200.available == 0) ||
  (s.highs.available == 0)

/-- One row of the historical archive (lines 261-268). -/
structure HistRow where
  date : Nat
  pct20 : ℚ
  pct50 : ℚ
  pct100 : ℚ
  pct200 : ℚ
  pct52w : ℚ
deriving Repr, DecidableEq

/-- The archive upsert (lines 270-277): rows carrying the new row's date
are removed, then the new row is appended. -/
def upsert (series : List HistRow) (r : HistRow) : List HistRow :=
  (series.filter (fun x => !(x.date == r.date))) ++ [r]

/-- The archive row assembled from a complete snapshot (lines 261-268). -/
def mkHistRow (d : Nat) (snap : Snapshot) : HistRow :=
  { date := d
    pct20 := snap.ma20.pct.getD 0
    pct50 := snap.ma50.pct.getD 0
    pct100 := snap.ma100.pct.getD 0
    pct200 := snap.ma200.pct.getD 0
    pct52w := snap.highs.pct.getD 0 }

/-- Embedding of the breadth endpoint on an existing hard-data file: runs
the per-symbol loop, renders the snapshot, and upserts into the archive
series only when no bucket is the sentinel and a trading date was observed
(line 260); the snapshot itself is returned either way. An Except.error
models an uncaught Python exception aborting the request. -/
def breadth (items : List (HardRow × Option (List Bar)))
    (series : List HistRow) : Except String (Snapshot × List HistRow) :=
  match runSymbols items with
  | Except.error e => Except.error e
  | Except.ok st =>
    let snap := buildSnapshot st
    let series2 :=
      if snapshotNil snap then series
      else
        match st.lastTradingDate with
        | none => series
        | some d => upsert series (mkHistRow d snap)
    Except.ok (snap, series2)

/-
Specification-side predicates and concrete inputs used by the theorems.
-/

/-- Specification predicate for one stored rolling-sum field measured
against the list of qualifying closes: the field is the unavailable
sentinel exactly when strictly fewer than n qualifying closes exist, and
otherwise it is the exact sum of the n most recent qualifying closes. -/
def sumFieldOk (cs : List ℚ) (field : Option ℚ) (n : Nat) : Prop :=
  (field = none ↔ cs.length < n) ∧
  (n ≤ cs.length → field = some ((cs.reverse.take n).sum))

/-- Modelled from the spec (section 4.2 step 5, the canonical policy of
section 9): the maximum High over the qualifying bars dated within one
calendar year of the last qualifying date, falling back to the maximum
High over the entire available window when that restricted set is empty.
This definition follows the spec's words; it is compared against the value
the code actually stores. -/
def calendarYearHigh (holidays : List Nat) (bars : List Bar) : Option ℚ :=
  let df := qualifyingBars holidays bars
  match df.getLast? with
  | none => none
  | some lastBar =>
    let recent := df.filter (fun b => lastBar.date ≤ b.date + 365)
    let pool := if recent.isEmpty then df else recent
    match pool.map (fun b => b.high) with
    | [] => none
    | h :: t => some (t.foldl max h)

/-- Specification predicate for one rendered bucket: when available > 0
the emitted pct is above / available, and when available = 0 the bucket
carries the unavailable sentinel in both the above and pct positions. -/
def bucketRendered (b : BucketOut) : Prop :=
  (0 < b.available →
    ∃ a, b.above = some a ∧ b.pct = some ((a : ℚ) / (b.available : ℚ))) ∧
  (b.available = 0 → b.above = none ∧ b.pct = none)

/-- Tally invariant: above never exceeds available. -/
def countsInv (c : Counts) : Prop := c.above ≤ c.available

/-- Loop-state invariant: every tally satisfies countsInv. -/
def stateInv (st : BState) : Prop :=
  countsInv st.c20 ∧ countsInv st.c50 ∧ countsInv st.c100 ∧
  countsInv st.c200 ∧ st.newHighs ≤ st.highAvailable

/-- Rendered-bucket invariant: a defined above count never exceeds
available. -/
def bucketInv (b : BucketOut) : Prop :=
  ∀ a, b.above = some a → a ≤ b.available

/-- Count of symbols whose fetch failed or returned an empty frame (the
skip at lines 106-107); a count the spec says the response reports. -/
def emptyHistoryFailures (f : List (String × Option (List Bar))) : Nat :=
  (f.filter (fun p =>
    match p.2 with
    | none => true
    | some bars => bars.isEmpty)).length

/-- Count of symbols with a non-empty fetch but fewer than 20 qualifying
days (the skip at lines 112-113); a count the spec says the response
reports. -/
def insufficientFailures (holidays : List Nat)
    (f : List (String × Option (List Bar))) : Nat :=
  (f.filter (fun p =>
    match p.2 with
    | none => false
    | some bars =>
      !bars.isEmpty && (buildRow holidays p.1 bars).isNone)).length

/-- A fetch outcome that produces no hard-data row: a failed fetch, an
empty frame, or insufficient qualifying history. -/
def fetchFails (holidays : List Nat)
    (p : String × Option (List Bar)) : Bool :=
  match p.2 with
  | none => true
  | some bars => bars.isEmpty || (buildRow holidays p.1 bars).isNone

/-- Concrete history: 21 bars on consecutive dates, every Close 0, so 20
qualifying days remain after the final bar is dropped. -/
def w1Bars : List Bar :=
  [⟨0, 0, 0, none⟩, ⟨1, 0, 0, none⟩, ⟨2, 0, 0, none⟩, ⟨3, 0, 0, none⟩,
   ⟨4, 0, 0, none⟩, ⟨5, 0, 0, none⟩, ⟨6, 0, 0, none⟩, ⟨7, 0, 0, none⟩,
   ⟨8, 0, 0, none⟩, ⟨9, 0, 0, none⟩, ⟨10, 0, 0, none⟩, ⟨11, 0, 0, none⟩,
   ⟨12, 0, 0, none⟩, ⟨13, 0, 0, none⟩, ⟨14, 0, 0, none⟩, ⟨15, 0, 0, none⟩,
   ⟨16, 0, 0, none⟩, ⟨17, 0, 0, none⟩, ⟨18, 0, 0, none⟩, ⟨19, 0, 0, none⟩,
   ⟨20, 0, 0, none⟩]

/-- The hard-data row the daily build produces from w1Bars. -/
def w1Row : HardRow := ⟨"A.NS", some 0, none, none, none, none⟩

/-- Concrete history: 21 bars, every High 50, every provider-supplied
52weekhigh field 100, so the stored value and the computed maximum
disagree. -/
def c2Bars : List Bar :=
  [⟨0, 1, 50, some 100⟩, ⟨1, 1, 50, some 100⟩, ⟨2, 1, 50, some 100⟩,
   ⟨3, 1, 50, some 100⟩, ⟨4, 1, 50, some 100⟩, ⟨5, 1, 50, some 100⟩,
   ⟨6, 1, 50, some 100⟩, ⟨7, 1, 50, some 100⟩, ⟨8, 1, 50, some 100⟩,
   ⟨9, 1, 50, some 100⟩, ⟨10, 1, 50, some 100⟩, ⟨11, 1, 50, some 100⟩,
   ⟨12, 1, 50, some 100⟩, ⟨13, 1, 50, some 100⟩, ⟨14, 1, 50, some 100⟩,
   ⟨15, 1, 50, some 100⟩, ⟨16, 1, 50, some 100⟩, ⟨17, 1, 50, some 100⟩,
   ⟨18, 1, 50, some 100⟩, ⟨19, 1, 50, some 100⟩, ⟨20, 1, 50, some 100⟩]

/-- The hard-data row the daily build produces from c2Bars. -/
def c2Row : HardRow := ⟨"A.NS", some 19, none, none, none, some 100⟩

/-- Concrete history: 20 bars on consecutive dates, so exactly 19
qualifying days remain after the final bar is dropped. -/
def c3Bars : List Bar :=
  [⟨0, 1, 1, none⟩, ⟨1, 1, 1, none⟩, ⟨2, 1, 1, none⟩, ⟨3, 1, 1, none⟩,
   ⟨4, 1, 1, none⟩, ⟨5, 1, 1, none⟩, ⟨6, 1, 1, none⟩, ⟨7, 1, 1, none⟩,
   ⟨8, 1, 1, none⟩, ⟨9, 1, 1, none⟩, ⟨10, 1, 1, none⟩, ⟨11, 1, 1, none⟩,
   ⟨12, 1, 1, none⟩, ⟨13, 1, 1, none⟩, ⟨14, 1, 1, none⟩, ⟨15, 1, 1, none⟩,
   ⟨16, 1, 1, none⟩, ⟨17, 1, 1, none⟩, ⟨18, 1, 1, none⟩, ⟨19, 1, 1, none⟩]

/-- Concrete hard-data row whose stored sum_19 is 0. -/
def c4Row : HardRow := ⟨"A.NS", some 0, none, none, none, none⟩

/-- Concrete quote whose last Close is 0, so (sum_19 + ltp) / 20 = 0. -/
def c4Quote : List Bar := [⟨0, 0, 0, none⟩]

/-- Concrete hard-data row with every rolling sum defined and a stored
52-week high of 1. -/
def wRowFull : HardRow := ⟨"A.NS", some 19, some 49, some 99, some 199, some 1⟩

/-- Concrete quote: last Close 1 and last High 2 on date 100. -/
def wQuote : List Bar := [⟨100, 1, 2, none⟩]

/-- The rendered bucket produced from wRowFull and wQuote: one symbol
available and above. -/
def wBucket : BucketOut := ⟨some 1, 1, some 1⟩

/-- The snapshot produced from wRowFull and wQuote. -/
def wSnap : Snapshot := ⟨wBucket, wBucket, wBucket, wBucket, wBucket⟩

/-- The archive row produced from wRowFull and wQuote. -/
def wHist : HistRow := ⟨100, 1, 1, 1, 1, 1⟩

/-- The snapshot of a breadth run over an empty hard-data set: every
bucket carries the unavailable sentinel. -/
def nilBucket : BucketOut := ⟨none, 0, none⟩

/-- The all-sentinel snapshot. -/
def nilSnap : Snapshot := ⟨nilBucket, nilBucket, nilBucket, nilBucket, nilBucket⟩

/-- Concrete archive series with one row dated 7. -/
def c7Series : List HistRow := [⟨7, 0, 0, 0, 0, 0⟩]

/-- Concrete archive row dated 7 with different content. -/
def c7Row : HistRow := ⟨7, 1, 1, 1, 1, 1⟩

/-- A second archive row with the same date as c7Row. -/
def c7Row2 : HistRow := ⟨7, 1, 1, 1, 1, 1⟩

/-- A batch whose single symbol has a failed fetch (empty history). -/
def c8Empty : List (String × Option (List Bar)) := [("A.NS", none)]

/-- A batch whose single symbol has one bar, hence insufficient history. -/
def c8Short : List (String × Option (List Bar)) :=
  [("A.NS", some [⟨0, 1, 1, none⟩])]

/-- A batch in which every symbol fails: one failed fetch and one empty
frame. -/
def c10Fetches : List (String × Option (List Bar)) :=
  [("A.NS", none), ("B.NS", some [])]

/-- A pre-existing hard-data store holding one stale record for every
universe. -/
def c10Store : String → List HardRow :=
  fun _ => [⟨"OLD.NS", some 1, some 1, some 1, some 1, some 1⟩]

/-
Theorems.
-/

/-- Helper: sum_last satisfies the rolling-sum field specification for
every input list and window length. -/
theorem sum_last_ok (cs : List ℚ) (n : Nat) : sumFieldOk cs (sum_last cs n) n := by
  unfold sumFieldOk sum_last
  constructor
  · split
    · simp_all
    · simp_all
  · intro hn
    rw [if_neg (by omega)]
    rw [List.take_reverse, List.sum_reverse]

/-- Claim C1: for every symbol for which the daily build stores a
hard-data row, and every window length N in the set containing 19, 49, 99
and 199, the stored sum_N field is the unavailable sentinel iff strictly
fewer than N qualifying closes remain after holiday filtering and dropping
the final bar, and otherwise equals the exact sum of the N most recent
qualifying closes. -/
theorem sum_fields_spec (holidays : List Nat) (symbol : String)
    (bars : List Bar) (r : HardRow)
    (h : buildRow holidays symbol bars = some r) :
    sumFieldOk (qualifyingCloses holidays bars) r.sum_19 19 ∧
    sumFieldOk (qualifyingCloses holidays bars) r.sum_49 49 ∧
    sumFieldOk (qualifyingCloses holidays bars) r.sum_99 99 ∧
    sumFieldOk (qualifyingCloses holidays bars) r.sum_199 199 := by
  simp only [buildRow] at h
  split at h
  · exact absurd h (by simp)
  · simp only [Option.some.injEq] at h
    subst h
    exact ⟨sum_last_ok _ _, sum_last_ok _ _, sum_last_ok _ _, sum_last_ok _ _⟩

/-- Witness for sum_fields_spec at a concrete 21-bar history with 20
qualifying days. -/
theorem sum_fields_spec_witness :
    sumFieldOk (qualifyingCloses [] w1Bars) w1Row.sum_19 19 ∧
    sumFieldOk (qualifyingCloses [] w1Bars) w1Row.sum_49 49 ∧
    sumFieldOk (qualifyingCloses [] w1Bars) w1Row.sum_99 99 ∧
    sumFieldOk (qualifyingCloses [] w1Bars) w1Row.sum_199 199 :=
  sum_fields_spec [] "A.NS" w1Bars w1Row (by
    simp [w1Bars, w1Row, buildRow, qualifyingBars, sum_last])

/-- Claim C2, counterexample: the code stores the provider-supplied
52weekhigh field of the last qualifying bar (line 123), not the maximum
High over the calendar-year window; at this input the stored value is 100
while every qualifying High is 50. -/
theorem fifty_two_week_high_cex :
    buildRow [] "A.NS" c2Bars = some c2Row ∧
    c2Row.week52high ≠ calendarYearHigh [] c2Bars := by
  constructor
  · simp [c2Bars, c2Row, buildRow, qualifyingBars, sum_last]
    norm_num
  · simp [c2Row, calendarYearHigh, c2Bars, qualifyingBars]

/-- Claim C2 as amended: the stored fifty_two_week_high equals the
provider-supplied 52weekhigh field of the last qualifying bar (none when
that field is missing), not a maximum computed over the window. -/
theorem fifty_two_week_high_amended (holidays : List Nat) (symbol : String)
    (bars : List Bar) (r : HardRow) (b : Bar)
    (h : buildRow holidays symbol bars = some r)
    (hb : (qualifyingBars holidays bars).getLast? = some b) :
    r.week52high = b.week52 := by
  simp only [buildRow] at h
  split at h
  · exact absurd h (by simp)
  · simp only [Option.some.injEq] at h
    subst h
    simp [hb]

/-- Witness for fifty_two_week_high_amended at the c2Bars history. -/
theorem fifty_two_week_high_amended_witness :
    c2Row.week52high = (Bar.mk 19 1 50 (some 100)).week52 :=
  fifty_two_week_high_amended [] "A.NS" c2Bars c2Row ⟨19, 1, 50, some 100⟩
    (by simp [c2Bars, c2Row, buildRow, qualifyingBars, sum_last]; norm_num)
    (by simp [c2Bars, qualifyingBars])

/-- Claim C3, counterexample: a history with exactly 19 qualifying days
after dropping the final bar is skipped by the insufficient-history check
(lines 112-113), so the daily build produces no record at all for it,
rather than a record with sum_19 defined and sum_49 unavailable. -/
theorem nineteen_day_cex :
    (qualifyingCloses [] c3Bars).length = 19 ∧
    buildRow [] "A.NS" c3Bars = none ∧
    (run_daily [] "NIFTY" [("A.NS", some c3Bars)]).2 = [] := by
  refine ⟨by decide, by decide, by decide⟩

/-- Claim C3 as amended: a symbol whose history yields exactly 19
qualifying days is excluded by the 20-day minimum and yields no record,
while a symbol with exactly 20 qualifying days yields a record with sum_19
defined and sum_49 set to the unavailable sentinel. -/
theorem nineteen_day_amended (holidays : List Nat) (symbol : String)
    (bars bars20 : List Bar)
    (h19 : (qualifyingCloses holidays bars).length = 19)
    (h20 : (qualifyingCloses holidays bars20).length = 20) :
    buildRow holidays symbol bars = none ∧
    ∃ r, buildRow holidays symbol bars20 = some r ∧
      r.sum_19 ≠ none ∧ r.sum_49 = none := by
  have hl19 : (qualifyingBars holidays bars).length = 19 := by
    simpa [qualifyingCloses] using h19
  have hl20 : (qualifyingBars holidays bars20).length = 20 := by
    simpa [qualifyingCloses] using h20
  constructor
  · simp only [buildRow]
    rw [if_pos (by omega)]
  · have hnot : ¬ (qualifyingBars holidays bars20).length < 20 := by omega
    have hb : buildRow holidays symbol bars20 = some
        { symbol := symbol
          sum_19 := sum_last ((qualifyingBars holidays bars20).map (fun b => b.close)) 19
          sum_49 := sum_last ((qualifyingBars holidays bars20).map (fun b => b.close)) 49
          sum_99 := sum_last ((qualifyingBars holidays bars20).map (fun b => b.close)) 99
          sum_199 := sum_last ((qualifyingBars holidays bars20).map (fun b => b.close)) 199
          week52high := (qualifyingBars holidays bars20).getLast?.bind
            (fun b => b.week52) } := by
      simp only [buildRow]
      rw [if_neg hnot]
    have hlen : ((qualifyingBars holidays bars20).map (fun b => b.close)).length = 20 := by
      rw [List.length_map, hl20]
    refine ⟨_, hb, ?_, ?_⟩
    · simp [sum_last, hlen]
    · simp [sum_last, hlen]

/-- Witness for nineteen_day_amended at concrete 20-bar and 21-bar
histories. -/
theorem nineteen_day_amended_witness :
    buildRow [] "A.NS" c3Bars = none ∧
    ∃ r, buildRow [] "A.NS" w1Bars = some r ∧
      r.sum_19 ≠ none ∧ r.sum_49 = none :=
  nineteen_day_amended [] "A.NS" c3Bars w1Bars (by decide) (by decide)

/-- Claim C4: the code divides the live close by the computed moving
average (line 210) with no zero guard; when the moving average is 0 the
request raises ZeroDivisionError instead of counting the symbol as not
above, contradicting the spec's explicit requirement. Evaluated at the
failing input: a record with sum_19 = 0 and a live close of 0. -/
theorem ma_zero_divide_error :
    breadth [(c4Row, some c4Quote)] [] = Except.error "ZeroDivisionError" := by
  simp [breadth, runSymbols, List.foldlM, symbolStep, bucketStep, pyDiv,
        c4Row, c4Quote, initState, Bind.bind, Except.bind, Pure.pure,
        Except.pure]

/-- Helper: inversion of a successful breadth request into its loop
state, snapshot and archive update. -/
theorem breadth_ok_inv (items : List (HardRow × Option (List Bar)))
    (series : List HistRow) (snap : Snapshot) (series2 : List HistRow)
    (h : breadth items series = Except.ok (snap, series2)) :
    ∃ st, runSymbols items = Except.ok st ∧ snap = buildSnapshot st ∧
      series2 = (if snapshotNil (buildSnapshot st) then series
        else
          match st.lastTradingDate with
          | none => series
          | some d => upsert series (mkHistRow d (buildSnapshot st))) := by
  unfold breadth at h
  cases hrs : runSymbols items with
  | error e => rw [hrs] at h; exact absurd h (by simp)
  | ok st =>
    rw [hrs] at h
    simp only [Except.ok.injEq, Prod.mk.injEq] at h
    exact ⟨st, rfl, h.1.symm, h.2.symm⟩

/-- Helper: every rendered bucket satisfies the rendering
specification. -/
theorem renderBucket_ok (c : Counts) : bucketRendered (renderBucket c) := by
  unfold bucketRendered renderBucket
  by_cases h : c.available = 0
  · rw [if_pos h]
    exact ⟨fun h0 => absurd h0 (by norm_num), fun _ => ⟨rfl, rfl⟩⟩
  · rw [if_neg h]
    exact ⟨fun _ => ⟨c.above, rfl, rfl⟩, fun h0 => absurd h0 h⟩

/-- Claim C5: in every snapshot a breadth request returns, each of the
four MA buckets and the new-high bucket has pct = above / available when
available > 0, and carries the explicit unavailable sentinel when
available = 0 — never a computed 0 / 0. -/
theorem pct_spec (items : List (HardRow × Option (List Bar)))
    (series : List HistRow) (snap : Snapshot) (series2 : List HistRow)
    (h : breadth items series = Except.ok (snap, series2)) :
    bucketRendered snap.ma20 ∧ bucketRendered snap.ma50 ∧
    bucketRendered snap.ma100 ∧ bucketRendered snap.ma200 ∧
    bucketRendered snap.highs := by
  obtain ⟨st, _, hsnap, _⟩ := breadth_ok_inv items series snap series2 h
  subst hsnap
  exact ⟨renderBucket_ok _, renderBucket_ok _, renderBucket_ok _,
    renderBucket_ok _, renderBucket_ok _⟩

/-- Witness for pct_spec at a one-symbol universe whose breadth request
succeeds with every bucket available. -/
theorem pct_spec_witness :
    bucketRendered wSnap.ma20 ∧ bucketRendered wSnap.ma50 ∧
    bucketRendered wSnap.ma100 ∧ bucketRendered wSnap.ma200 ∧
    bucketRendered wSnap.highs :=
  pct_spec [(wRowFull, some wQuote)] [] wSnap [wHist] (by
    simp [breadth, runSymbols, List.foldlM, symbolStep, bucketStep, pyDiv,
          wRowFull, wQuote, initState, buildSnapshot, renderBucket,
          snapshotNil, upsert, mkHistRow, wSnap, wBucket, wHist, Bind.bind,
          Except.bind, Pure.pure, Except.pure]
    norm_num)

/-- Claim C6: when a successfully returned snapshot contains any
unavailable bucket (the new-high bucket included), the archive series is
left unchanged — no row is written for that date — while the snapshot is
still returned to the caller. -/
theorem incomplete_not_archived (items : List (HardRow × Option (List Bar)))
    (series : List HistRow) (snap : Snapshot) (series2 : List HistRow)
    (h : breadth items series = Except.ok (snap, series2))
    (hnil : snapshotNil snap = true) :
    series2 = series := by
  obtain ⟨st, _, hsnap, hser⟩ := breadth_ok_inv items series snap series2 h
  rw [hsnap] at hnil
  rw [hser, if_pos hnil]

/-- Witness for incomplete_not_archived at a breadth request over an
empty hard-data set: every bucket is the sentinel and the archive stays
empty. -/
theorem incomplete_not_archived_witness : ([] : List HistRow) = [] :=
  incomplete_not_archived [] [] nilSnap [] (by rfl) (by rfl)

/-- Helper: a filter and its negation split the length of a list. -/
theorem filter_length_split (s : List HistRow) (p : HistRow → Bool) :
    (s.filter p).length + (s.filter (fun x => !(p x))).length = s.length := by
  induction s with
  | nil => rfl
  | cons a t ih =>
    by_cases h : p a <;> simp [List.filter_cons, h] <;> omega

/-- Claim C7: the archive upsert is idempotent by trading date — a row
whose date already occurs (once) in the series replaces the old row
without changing the length, a row with a fresh date appends (length grows
by one), and a second upsert with the same date (identical content
included, taking r2 = r) collapses into the last one, leaving the series
unchanged in length. -/
theorem upsert_by_date (s : List HistRow) (r r2 : HistRow)
    (hd : r2.date = r.date) :
    ((s.filter (fun x => x.date == r.date)).length = 1 →
      (upsert s r).length = s.length) ∧
    ((s.filter (fun x => x.date == r.date)).length = 0 →
      (upsert s r).length = s.length + 1) ∧
    upsert (upsert s r) r2 = upsert s r2 := by
  have hsplit := filter_length_split s (fun x => x.date == r.date)
  have hlen : (upsert s r).length =
      (s.filter (fun x => !(x.date == r.date))).length + 1 := by
    simp [upsert]
  refine ⟨?_, ?_, ?_⟩
  · intro h1
    rw [hlen]
    omega
  · intro h0
    rw [hlen]
    omega
  · have hp : (fun x : HistRow => !(x.date == r2.date)) =
        (fun x : HistRow => !(x.date == r.date)) := by
      funext x
      rw [hd]
    unfold upsert
    rw [List.filter_append, hp, List.filter_filter]
    simp [hd]

/-- Witness for upsert_by_date at a one-row series and two rows sharing
its date. -/
theorem upsert_by_date_witness :
    ((c7Series.filter (fun x => x.date == c7Row.date)).length = 1 →
      (upsert c7Series c7Row).length = c7Series.length) ∧
    ((c7Series.filter (fun x => x.date == c7Row.date)).length = 0 →
      (upsert c7Series c7Row).length = c7Series.length + 1) ∧
    upsert (upsert c7Series c7Row) c7Row2 = upsert c7Series c7Row2 :=
  upsert_by_date c7Series c7Row c7Row2 (by rfl)

/-- Claim C8, counterexample: two daily builds — one whose single symbol
has a failed fetch (an empty-history exclusion) and one whose single
symbol has insufficient history — produce identical responses, so the
response cannot report empty-history and insufficient-history failures as
separately countable; it carries only the built count. -/
theorem daily_counts_cex :
    (run_daily [] "NIFTY" c8Empty).1 = (run_daily [] "NIFTY" c8Short).1 ∧
    emptyHistoryFailures c8Empty ≠ emptyHistoryFailures c8Short ∧
    insufficientFailures [] c8Empty ≠ insufficientFailures [] c8Short := by
  refine ⟨by decide, by decide, by decide⟩

/-- Claim C8 as amended: the daily-build response reports only the
universe and the count of successfully built symbols; the empty-history
and insufficient-history exclusions are silently skipped and are not
separately countable from the response. -/
theorem daily_counts_amended (holidays : List Nat) (u : String)
    (f : List (String × Option (List Bar))) :
    (run_daily holidays u f).1 =
      { universeName := u, stocks_built := (run_daily holidays u f).2.length } :=
  rfl

/-- Helper: inversion of a successful Except bind. -/
theorem bind_ok_inv {α β : Type} {x : Except String α}
    {f : α → Except String β} {b : β}
    (h : Bind.bind x f = Except.ok b) :
    ∃ a, x = Except.ok a ∧ f a = Except.ok b := by
  cases x with
  | error e => exact absurd h (by simp [Bind.bind, Except.bind])
  | ok a =>
    refine ⟨a, rfl, ?_⟩
    simpa [Bind.bind, Except.bind] using h

/-- Helper: one bucket iteration preserves the tally invariant — above is
incremented only in an iteration that also increments available. -/
theorem bucketStep_inv (ltp period : ℚ) (sv : Option ℚ) (c c2 : Counts)
    (hc : countsInv c) (h : bucketStep ltp period sv c = Except.ok c2) :
    countsInv c2 := by
  cases sv with
  | none =>
    simp only [bucketStep, Except.ok.injEq] at h
    subst h
    exact hc
  | some s =>
    simp only [bucketStep, pyDiv] at h
    split at h
    · exact absurd h (by simp)
    · simp only [Except.ok.injEq] at h
      subst h
      unfold countsInv at hc ⊢
      split
      · simpa using Nat.succ_le_succ hc
      · simpa using Nat.le_succ_of_le hc

/-- Helper: one symbol iteration preserves the loop-state invariant. -/
theorem symbolStep_inv (st st2 : BState) (row : HardRow)
    (q : Option (List Bar)) (hs : stateInv st)
    (h : symbolStep st row q = Except.ok st2) : stateInv st2 := by
  cases q with
  | none =>
    simp only [symbolStep, Pure.pure, Except.pure, Except.ok.injEq] at h
    subst h
    exact hs
  | some bars =>
    cases hlast : bars.getLast? with
    | none =>
      simp only [symbolStep, hlast, Pure.pure, Except.pure,
        Except.ok.injEq] at h
      subst h
      exact hs
    | some lastBar =>
      simp only [symbolStep, hlast] at h
      obtain ⟨c20, h20, h⟩ := bind_ok_inv h
      obtain ⟨c50, h50, h⟩ := bind_ok_inv h
      obtain ⟨c100, h100, h⟩ := bind_ok_inv h
      obtain ⟨c200, h200, h⟩ := bind_ok_inv h
      simp only [Pure.pure, Except.pure, Except.ok.injEq] at h
      subst h
      refine ⟨bucketStep_inv _ _ _ _ _ hs.1 h20,
        bucketStep_inv _ _ _ _ _ hs.2.1 h50,
        bucketStep_inv _ _ _ _ _ hs.2.2.1 h100,
        bucketStep_inv _ _ _ _ _ hs.2.2.2.1 h200, ?_⟩
      have hnh := hs.2.2.2.2
      cases row.week52high with
      | none => simpa using hnh
      | some w =>
        simp only []
        split
        · simpa using Nat.succ_le_succ hnh
        · simpa using Nat.le_succ_of_le hnh

/-- Helper: the whole per-symbol loop preserves the loop-state
invariant. -/
theorem foldl_inv (items : List (HardRow × Option (List Bar))) :
    ∀ st0 st : BState, stateInv st0 →
      List.foldlM (fun st p => symbolStep st p.1 p.2) st0 items =
        Except.ok st →
      stateInv st := by
  induction items with
  | nil =>
    intro st0 st h0 h
    simp only [List.foldlM_nil, Pure.pure, Except.pure, Except.ok.injEq] at h
    subst h
    exact h0
  | cons p rest ih =>
    intro st0 st h0 h
    rw [List.foldlM_cons] at h
    obtain ⟨st1, h1, h2⟩ := bind_ok_inv h
    exact ih st1 st (symbolStep_inv st0 st1 p.1 p.2 h0 h1) h2

/-- Helper: rendering a tally that satisfies the invariant yields a
bucket with above at most available. -/
theorem renderBucket_inv (c : Counts) (hc : countsInv c) :
    bucketInv (renderBucket c) := by
  unfold bucketInv renderBucket
  by_cases h : c.available = 0
  · rw [if_pos h]
    intro a ha
    exact absurd ha (by simp)
  · rw [if_neg h]
    intro a ha
    simp only [Option.some.injEq] at ha
    subst ha
    exact hc

/-- Claim C9: in every snapshot a breadth request returns, each of the
four MA buckets and the new-high bucket satisfies above at most
available — a symbol's above counter is incremented only in an iteration
that also increments available. -/
theorem above_le_available (items : List (HardRow × Option (List Bar)))
    (series : List HistRow) (snap : Snapshot) (series2 : List HistRow)
    (h : breadth items series = Except.ok (snap, series2)) :
    bucketInv snap.ma20 ∧ bucketInv snap.ma50 ∧ bucketInv snap.ma100 ∧
    bucketInv snap.ma200 ∧ bucketInv snap.highs := by
  obtain ⟨st, hrs, hsnap, _⟩ := breadth_ok_inv items series snap series2 h
  have hinit : stateInv initState := ⟨Nat.le_refl 0, Nat.le_refl 0,
    Nat.le_refl 0, Nat.le_refl 0, Nat.le_refl 0⟩
  have hst : stateInv st := foldl_inv items initState st hinit hrs
  subst hsnap
  exact ⟨renderBucket_inv _ hst.1, renderBucket_inv _ hst.2.1,
    renderBucket_inv _ hst.2.2.1, renderBucket_inv _ hst.2.2.2.1,
    renderBucket_inv _ hst.2.2.2.2⟩

/-- Witness for above_le_available at a one-symbol universe whose breadth
request succeeds. -/
theorem above_le_available_witness :
    bucketInv wSnap.ma20 ∧ bucketInv wSnap.ma50 ∧ bucketInv wSnap.ma100 ∧
    bucketInv wSnap.ma200 ∧ bucketInv wSnap.highs :=
  above_le_available [(wRowFull, some wQuote)] [] wSnap [wHist] (by
    simp [breadth, runSymbols, List.foldlM, symbolStep, bucketStep, pyDiv,
          wRowFull, wQuote, initState, buildSnapshot, renderBucket,
          snapshotNil, upsert, mkHistRow, wSnap, wBucket, wHist, Bind.bind,
          Except.bind, Pure.pure, Except.pure]
    norm_num)

/-- Claim C10: a daily build on an existing universe unconditionally
replaces that universe's stored hard-data set with exactly the records
built in the current run — regardless of what any prior store held — and
a run in which every symbol fails leaves an empty record set. -/
theorem rebuild_replaces (holidays : List Nat) (u : String)
    (f : List (String × Option (List Bar)))
    (store store2 : String → List HardRow) :
    ((run_daily_store holidays u f store).1 u = (run_daily holidays u f).2 ∧
     (run_daily_store holidays u f store).1 u =
       (run_daily_store holidays u f store2).1 u) ∧
    ((∀ p ∈ f, fetchFails holidays p = true) →
      (run_daily_store holidays u f store).1 u = []) := by
  refine ⟨⟨?_, ?_⟩, ?_⟩
  · simp [run_daily_store, updateStore, run_daily]
  · simp [run_daily_store, updateStore]
  · intro hall
    have hnil : buildRows holidays f = [] := by
      rw [buildRows, List.filterMap_eq_nil_iff]
      intro p hp
      have hf := hall p hp
      unfold fetchFails at hf
      cases hq : p.2 with
      | none => simp
      | some bars =>
        rw [hq] at hf
        simp only [Bool.or_eq_true] at hf
        rcases hf with hf | hf
        · simp [hf]
        · have : buildRow holidays p.1 bars = none := by
            simpa [Option.isNone_iff_eq_none] using hf
          simp [this]
    simp [run_daily_store, updateStore, run_daily, hnil]

/-- Witness for rebuild_replaces at a batch whose two symbols both fail,
against a store already holding a stale record. -/
theorem rebuild_replaces_witness :
    ((run_daily_store [] "NIFTY" c10Fetches c10Store).1 "NIFTY" =
        (run_daily [] "NIFTY" c10Fetches).2 ∧
     (run_daily_store [] "NIFTY" c10Fetches c10Store).1 "NIFTY" =
       (run_daily_store [] "NIFTY" c10Fetches (fun _ => [])).1 "NIFTY") ∧
    ((∀ p ∈ c10Fetches, fetchFails [] p = true) →
      (run_daily_store [] "NIFTY" c10Fetches c10Store).1 "NIFTY" = []) :=
  rebuild_replaces [] "NIFTY" c10Fetches c10Store (fun _ => [])

end BreadthBackend
